import Mathlib

/-!
Verification of the regulatory-report generator (`app.py`): the update-record
data model, the impact-grouping helper, the PDF renderer, and the
four-state session workflow (Idle, Running, Complete, Failure).
-/

set_option maxHeartbeats 1000000

/-- One regulatory update record, mirroring the dictionaries of `STUB_UPDATES`
in `app.py` (same field names). -/
structure Update where
  id : Nat
  country : String
  regulation_name : String
  reference_number : String
  authority : String
  summary : String
  key_changes : List String
  effective_date : String
  compliance_deadline : String
  transition_period : String
  applicable : Bool
  impact_level : String
  harmonization : List String
  affected_products : List String
  rationale : String
deriving DecidableEq

/-- The `COUNTRIES` scope list of `app.py`. -/
def COUNTRIES : List String :=
  ["United States", "United Kingdom", "Japan", "United Arab Emirates",
   "Korea, Republic of", "India", "China", "Italy", "Switzerland", "Taiwan",
   "Spain", "Turkey", "Israel", "Germany", "Canada"]

/-- The `PRODUCTS` scope list of `app.py`. -/
def PRODUCTS : List String :=
  ["Guardant360", "Guardant360 CDx", "GuardantOMNI", "Guardant Reveal", "Shield"]

/-- First record of `STUB_UPDATES`. -/
def stub1 : Update :=
  { id := 1
    country := "United States"
    regulation_name := "CLIA Update 2025"
    reference_number := "CLIA-2025-01"
    authority := "CMS"
    summary := "CLIA regulations updated for NGS-based diagnostics."
    key_changes :=
      ["Expanded oversight for ctDNA tests.",
       "New reporting requirements.",
       "Shortened compliance window."]
    effective_date := "2025-12-01"
    compliance_deadline := "2026-03-01"
    transition_period := "3 months"
    applicable := true
    impact_level := "CRITICAL"
    harmonization := ["CLIA", "CAP", "FDA guidance"]
    affected_products := ["Guardant360", "GuardantOMNI"]
    rationale := "Immediate compliance required for NGS-based tests." }

/-- Second record of `STUB_UPDATES`. -/
def stub2 : Update :=
  { id := 2
    country := "Japan"
    regulation_name := "PMDA Guidance on Liquid Biopsy"
    reference_number := "PMDA-2025-02"
    authority := "PMDA"
    summary := "New guidance for liquid biopsy cancer screening."
    key_changes :=
      ["Clarified requirements for ctDNA.",
       "Introduced ISO 15189 mapping.",
       "Defined transition period."]
    effective_date := "2026-01-15"
    compliance_deadline := "2026-07-15"
    transition_period := "6 months"
    applicable := true
    impact_level := "HIGH"
    harmonization := ["ISO 15189", "IMDRF"]
    affected_products := ["Guardant Reveal"]
    rationale := "Action required within 3 months for new tests." }

/-- Third record of `STUB_UPDATES`. -/
def stub3 : Update :=
  { id := 3
    country := "Germany"
    regulation_name := "EU IVDR Update"
    reference_number := "IVDR-2025-03"
    authority := "BfArM"
    summary := "EU IVDR changes for multi-gene panels."
    key_changes :=
      ["Expanded scope for NGS panels.",
       "New harmonization with ISO 13485.",
       "Monitoring only for now."]
    effective_date := "2025-11-01"
    compliance_deadline := "2026-05-01"
    transition_period := "6 months"
    applicable := false
    impact_level := "LOW"
    harmonization := ["ISO 13485", "EU IVDR"]
    affected_products := []
    rationale := "Monitoring only; no immediate action." }

/-- The fixed seed data `STUB_UPDATES` of `app.py`. -/
def STUB_UPDATES : List Update := [stub1, stub2, stub3]

/-- The four buckets of `group_updates_by_impact`
(`buckets = {"CRITICAL": [], "HIGH": [], "MEDIUM": [], "LOW": []}`). -/
structure Buckets where
  critical : List Update
  high : List Update
  medium : List Update
  low : List Update
deriving DecidableEq

/-- The initial bucket dictionary with four empty lists. -/
def emptyBuckets : Buckets := ⟨[], [], [], []⟩

/-- One loop iteration of `group_updates_by_impact`:
`buckets[update["impact_level"]].append(update)`. A dictionary lookup with a
key other than the four bucket names raises `KeyError`, modelled as `none`. -/
def addToBucket (b : Buckets) (u : Update) : Option Buckets :=
  if u.impact_level = "CRITICAL" then some { b with critical := b.critical ++ [u] }
  else if u.impact_level = "HIGH" then some { b with high := b.high ++ [u] }
  else if u.impact_level = "MEDIUM" then some { b with medium := b.medium ++ [u] }
  else if u.impact_level = "LOW" then some { b with low := b.low ++ [u] }
  else none

/-- The `for update in updates` loop of `group_updates_by_impact`. -/
def groupGo (acc : Buckets) : List Update → Option Buckets
  | [] => some acc
  | u :: rest =>
    match addToBucket acc u with
    | none => none
    | some acc₁ => groupGo acc₁ rest

/-- `group_updates_by_impact(updates)` of `app.py`; `none` models the
`KeyError` raised on an unrecognized impact level. -/
def group_updates_by_impact (updates : List Update) : Option Buckets :=
  groupGo emptyBuckets updates

/-- The impact level is one of the four recognized bucket keys. -/
def validImpact (u : Update) : Prop :=
  u.impact_level = "CRITICAL" ∨ u.impact_level = "HIGH" ∨
  u.impact_level = "MEDIUM" ∨ u.impact_level = "LOW"

instance (u : Update) : Decidable (validImpact u) := by
  unfold validImpact; infer_instance

/-- The paragraph styles `generate_pdf` draws from `getSampleStyleSheet()`
(`styleH3` is fetched but never used on an element). -/
inductive Style where
  | normal
  | heading1
  | heading2
deriving DecidableEq

/-- One flowable appended to `elements` in `generate_pdf`: a `Paragraph(text,
style)`, a `Spacer(1, h)` with `h` the height in hundredths of an inch, or a
`PageBreak()`. -/
inductive Element where
  | para (text : String) (style : Style)
  | spacer (h : Nat)
  | pageBreak
deriving DecidableEq

/-- An edit map of the session (`st.session_state['rationales']` or
`st.session_state['affected']`): update identifier to user-supplied string. -/
abbrev EditMap := List (Nat × String)

/-- Dictionary lookup: `m.get(k)` of a Python dict, `None` when absent. -/
def lookupEdit : EditMap → Nat → Option String
  | [], _ => none
  | (k, v) :: rest, i => if k = i then some v else lookupEdit rest i

/-- Dictionary assignment `m[k] = v`: overwrites in place when the key exists,
appends otherwise (insertion order preserved, as in a Python dict). -/
def setEdit (m : EditMap) (k : Nat) (v : String) : EditMap :=
  if m.any (fun p => p.1 == k) then
    m.map (fun p => if p.1 == k then (k, v) else p)
  else m ++ [(k, v)]

/-- The elements appended for a single update inside the section loop of
`generate_pdf` (`for update in section_updates:` body). `rationales.get(id,
default)` and `affected.get(id, default)` become `lookupEdit … |>.getD …`. -/
def renderUpdateBlock (rationales affected : EditMap) (u : Update) : List Element :=
  [Element.para ("<b>[" ++
      (if u.applicable then "GUARDANT HEALTH APPLICABLE" else "NOT DIRECTLY APPLICABLE")
      ++ "]</b>") Style.normal,
   Element.para ("<b>Country & Regulation</b>: " ++ u.country ++ ", " ++
      u.regulation_name ++ " (" ++ u.reference_number ++ "), " ++ u.authority)
      Style.normal,
   Element.para ("<b>Change Summary</b>: " ++ u.summary) Style.normal,
   Element.para "<b>Key Changes:</b>" Style.normal] ++
  u.key_changes.map (fun c => Element.para ("- " ++ c) Style.normal) ++
  [Element.para "<b>Guardant Health Impact Assessment:</b>" Style.normal,
   Element.para ("- <b>Impact Level</b>: " ++ u.impact_level) Style.normal,
   Element.para ("- <b>Rationale</b>: " ++ (lookupEdit rationales u.id).getD u.rationale)
      Style.normal,
   Element.para ("- <b>Affected Products or Operations</b>: " ++
      (lookupEdit affected u.id).getD (String.intercalate ", " u.affected_products))
      Style.normal,
   Element.para "<b>Action Required:</b>" Style.normal,
   Element.para "1. [Specific compliance step 1]" Style.normal,
   Element.para "2. [Specific compliance step 2]" Style.normal,
   Element.para "3. [Specific compliance step 3]" Style.normal,
   Element.para "<b>Timeline:</b>" Style.normal,
   Element.para ("- Effective Date: " ++ u.effective_date) Style.normal,
   Element.para ("- Compliance Deadline: " ++ u.compliance_deadline) Style.normal,
   Element.para ("- Transition Period: " ++ u.transition_period) Style.normal,
   Element.para ("<b>Related Standards or Regulations</b>: " ++
      String.intercalate ", " u.harmonization) Style.normal,
   Element.para
      "<b>Cross-Reference:</b> [Links or notes to similar changes in other countries if applicable]"
      Style.normal,
   Element.spacer 20]

/-- The inner `for update in section_updates` loop of `generate_pdf`. -/
def renderBlocks (rationales affected : EditMap) : List Update → List Element
  | [] => []
  | u :: rest => renderUpdateBlock rationales affected u ++ renderBlocks rationales affected rest

/-- One iteration of the `for impact, section_title in impact_sections` loop of
`generate_pdf`: heading and spacer, then either the "no updates" placeholder
(the `continue` skips the `PageBreak`) or the record blocks followed by a
`PageBreak`. -/
def renderSection (title : String) (sec : List Update) (rationales affected : EditMap) :
    List Element :=
  [Element.para title Style.heading2, Element.spacer 15] ++
  match sec with
  | [] => [Element.para "No updates in this section." Style.normal, Element.spacer 10]
  | _ :: _ => renderBlocks rationales affected sec ++ [Element.pageBreak]

/-- The header block of `generate_pdf` (title, scope lists, generation
timestamp). The timestamp `datetime.datetime.now().strftime(…)` is passed in
explicitly as `now`. -/
def pdfHeader (now : String) : List Element :=
  [Element.para "Guardant Health Regulatory Intelligence - MVP Report" Style.heading1,
   Element.spacer 20,
   Element.para ("Countries: " ++ String.intercalate ", " COUNTRIES) Style.normal,
   Element.para ("Products: " ++ String.intercalate ", " PRODUCTS) Style.normal,
   Element.spacer 20,
   Element.para ("Generated at: " ++ now) Style.normal,
   Element.spacer 30]

/-- `generate_pdf(updates, rationales, affected)` of `app.py`, producing the
flowable list handed to `doc.build`; `none` models the `KeyError` that
`group_updates_by_impact` raises on an unrecognized impact level. The section
titles and order are those of `impact_sections`. -/
def generate_pdf (updates : List Update) (rationales affected : EditMap) (now : String) :
    Option (List Element) :=
  match group_updates_by_impact updates with
  | none => none
  | some buckets =>
    some (pdfHeader now ++
      renderSection "Critical or High Priority" buckets.critical rationales affected ++
      renderSection "High Priority" buckets.high rationales affected ++
      renderSection "Medium Priority" buckets.medium rationales affected ++
      renderSection "Emerging Trends / No Material Changes" buckets.low rationales affected)

/-- The workflow states stored in `st.session_state['state']`. -/
inductive WState where
  | Idle
  | Running
  | Complete
  | Failure
deriving DecidableEq

/-- The per-user session (`st.session_state`): workflow state, result set,
the two edit maps, the log lines, and the last error. The initial session of
`app.py` has no `error` key at all; an absent key reads as `None` through
`st.session_state.get('error')`, so both are modelled as `none`. -/
structure Session where
  state : WState
  results : Option (List Update)
  rationales : EditMap
  affected : EditMap
  logs : List String
  error : Option String
deriving DecidableEq

/-- The session initialized on first load (`if 'state' not in st.session_state`). -/
def initSession : Session :=
  { state := WState.Idle, results := none, rationales := [], affected := [],
    logs := [], error := none }

/-- The observable outcome of one run of the simulated pipeline in the
`Running` branch: either it finishes (the three phase timestamps and the
elapsed-time text of the four appended log lines), or some statement of the
`try` block raises an exception carrying message `msg`, with `logsBefore` the
phase lines appended before the raise. -/
inductive RunOutcome where
  | success (t1 t2 t3 elapsed : String)
  | failure (logsBefore : List String) (msg : String)

/-- The `Running` branch of `app.py` (lines 204-229): on success, the three
phase log lines and the completion line are appended, the fixed `STUB_UPDATES`
result set is stored, the error is cleared and the state becomes `Complete`;
the `except Exception` handler appends `"Error: " + str(e)`, stores the
message, and moves to `Failure`. -/
def runningStep (s : Session) : RunOutcome → Session
  | RunOutcome.success t1 t2 t3 elapsed =>
    { s with
      logs := s.logs ++
        ["Ingestion started at " ++ t1,
         "Parsing started at " ++ t2,
         "Classification started at " ++ t3,
         "Analysis complete in " ++ elapsed ++ " seconds."],
      results := some STUB_UPDATES,
      state := WState.Complete,
      error := none }
  | RunOutcome.failure logsBefore msg =>
    { s with
      logs := s.logs ++ logsBefore ++ ["Error: " ++ msg],
      error := some msg,
      state := WState.Failure }

/-- The user or pipeline events of the app: the "Run Analysis" button (Idle
view), one pipeline run (Running view), editing a record's two text fields and
the "Download PDF" button (Complete view, the latter appending its render-time
log line), "Reset" (Complete view), and "Retry" (Failure view). -/
inductive AppAction where
  | runAnalysis
  | pipeline (o : RunOutcome)
  | editRationale (i : Nat) (v : String)
  | editAffected (i : Nat) (v : String)
  | downloadPdf (elapsed : String)
  | reset
  | retry

/-- One dispatch of the `if/elif` chain on `st.session_state['state']`
(lines 199-283 of `app.py`): `some` is the session after the handler ran,
`none` means the action's control is not offered in the current state. -/
def step (s : Session) : AppAction → Option Session
  | AppAction.runAnalysis =>
    if s.state = WState.Idle then
      some { s with state := WState.Running, error := none }
    else none
  | AppAction.pipeline o =>
    if s.state = WState.Running then some (runningStep s o) else none
  | AppAction.editRationale i v =>
    if s.state = WState.Complete then
      some { s with rationales := setEdit s.rationales i v }
    else none
  | AppAction.editAffected i v =>
    if s.state = WState.Complete then
      some { s with affected := setEdit s.affected i v }
    else none
  | AppAction.downloadPdf elapsed =>
    if s.state = WState.Complete then
      some { s with logs := s.logs ++ ["PDF rendered in " ++ elapsed ++ " seconds."] }
    else none
  | AppAction.reset =>
    if s.state = WState.Complete then
      some { state := WState.Idle, results := none, rationales := [],
             affected := [], logs := [], error := none }
    else none
  | AppAction.retry =>
    if s.state = WState.Failure then
      some { s with state := WState.Idle, error := none }
    else none

/-- The sessions reachable from the initial session by valid transitions. -/
inductive Reachable : Session → Prop where
  | init : Reachable initSession
  | step {s : Session} {a : AppAction} {s' : Session} :
      Reachable s → step s a = some s' → Reachable s'

section GroupingLemmas

lemma groupGo_char : ∀ (us : List Update) (acc b : Buckets), groupGo acc us = some b →
    b.critical = acc.critical ++ us.filter (fun u => u.impact_level == "CRITICAL") ∧
    b.high = acc.high ++ us.filter (fun u => u.impact_level == "HIGH") ∧
    b.medium = acc.medium ++ us.filter (fun u => u.impact_level == "MEDIUM") ∧
    b.low = acc.low ++ us.filter (fun u => u.impact_level == "LOW") := by
  intro us
  induction us with
  | nil =>
    intro acc b h
    simp only [groupGo, Option.some.injEq] at h
    subst h
    simp
  | cons u rest ih =>
    intro acc b h
    simp only [groupGo] at h
    revert h
    unfold addToBucket
    split_ifs with h1 h2 h3 h4 <;> intro h
    · obtain ⟨e1, e2, e3, e4⟩ := ih _ _ h
      exact ⟨by simp [e1, List.filter_cons, h1], by simp [e2, List.filter_cons, h1],
             by simp [e3, List.filter_cons, h1], by simp [e4, List.filter_cons, h1]⟩
    · obtain ⟨e1, e2, e3, e4⟩ := ih _ _ h
      exact ⟨by simp [e1, List.filter_cons, h1, h2], by simp [e2, List.filter_cons, h1, h2],
             by simp [e3, List.filter_cons, h1, h2], by simp [e4, List.filter_cons, h1, h2]⟩
    · obtain ⟨e1, e2, e3, e4⟩ := ih _ _ h
      exact ⟨by simp [e1, List.filter_cons, h1, h2, h3], by simp [e2, List.filter_cons, h1, h2, h3],
             by simp [e3, List.filter_cons, h1, h2, h3], by simp [e4, List.filter_cons, h1, h2, h3]⟩
    · obtain ⟨e1, e2, e3, e4⟩ := ih _ _ h
      exact ⟨by simp [e1, List.filter_cons, h1, h2, h3, h4],
             by simp [e2, List.filter_cons, h1, h2, h3, h4],
             by simp [e3, List.filter_cons, h1, h2, h3, h4],
             by simp [e4, List.filter_cons, h1, h2, h3, h4]⟩
    · exact h.elim

lemma groupGo_total : ∀ (us : List Update) (acc : Buckets),
    (∀ u ∈ us, validImpact u) → (groupGo acc us).isSome = true := by
  intro us
  induction us with
  | nil => intro acc _; simp [groupGo]
  | cons u rest ih =>
    intro acc hv
    have hu : validImpact u := hv u (by simp)
    have hrest : ∀ w ∈ rest, validImpact w := fun w hw => hv w (by simp [hw])
    simp only [groupGo]
    rcases hu with h | h | h | h <;> simp [addToBucket, h] <;> exact ih _ hrest

lemma groupGo_valid : ∀ (us : List Update) (acc b : Buckets), groupGo acc us = some b →
    ∀ u ∈ us, validImpact u := by
  intro us
  induction us with
  | nil => intro acc b _ u hu; simp at hu
  | cons u rest ih =>
    intro acc b h w hw
    simp only [groupGo] at h
    revert h
    unfold addToBucket
    split_ifs with h1 h2 h3 h4 <;> intro h
    · rcases List.mem_cons.mp hw with rfl | hw'
      · exact Or.inl h1
      · exact ih _ _ h w hw'
    · rcases List.mem_cons.mp hw with rfl | hw'
      · exact Or.inr (Or.inl h2)
      · exact ih _ _ h w hw'
    · rcases List.mem_cons.mp hw with rfl | hw'
      · exact Or.inr (Or.inr (Or.inl h3))
      · exact ih _ _ h w hw'
    · rcases List.mem_cons.mp hw with rfl | hw'
      · exact Or.inr (Or.inr (Or.inr h4))
      · exact ih _ _ h w hw'
    · exact h.elim

end GroupingLemmas

/-- C4: for a list of update records whose impact levels are all recognized,
`group_updates_by_impact` partitions the list into the four buckets: each
bucket holds exactly the records bearing its impact level, in input order
(the order-preserving `filter` of the input list). -/
theorem group_partitions (us : List Update) (h : ∀ u ∈ us, validImpact u) :
    group_updates_by_impact us = some
      { critical := us.filter (fun u => u.impact_level == "CRITICAL"),
        high := us.filter (fun u => u.impact_level == "HIGH"),
        medium := us.filter (fun u => u.impact_level == "MEDIUM"),
        low := us.filter (fun u => u.impact_level == "LOW") } := by
  have htot := groupGo_total us emptyBuckets h
  obtain ⟨b, hb⟩ := Option.isSome_iff_exists.mp htot
  obtain ⟨e1, e2, e3, e4⟩ := groupGo_char us emptyBuckets b hb
  have : b = { critical := us.filter (fun u => u.impact_level == "CRITICAL"),
               high := us.filter (fun u => u.impact_level == "HIGH"),
               medium := us.filter (fun u => u.impact_level == "MEDIUM"),
               low := us.filter (fun u => u.impact_level == "LOW") } := by
    cases b
    simp_all [emptyBuckets]
  rw [group_updates_by_impact, hb, this]

/-- Witness for C4 at the seed data. -/
theorem group_partitions_witness :
    group_updates_by_impact STUB_UPDATES = some
      { critical := STUB_UPDATES.filter (fun u => u.impact_level == "CRITICAL"),
        high := STUB_UPDATES.filter (fun u => u.impact_level == "HIGH"),
        medium := STUB_UPDATES.filter (fun u => u.impact_level == "MEDIUM"),
        low := STUB_UPDATES.filter (fun u => u.impact_level == "LOW") } :=
  group_partitions STUB_UPDATES (by decide)

/-- A record whose impact level is none of the four bucket keys. -/
def badUpdate : Update := { stub3 with impact_level := "UNKNOWN" }

/-- C5: under the precondition that every record's impact level is one of
CRITICAL, HIGH, MEDIUM, LOW the grouping helper always succeeds (its error
branch is unreachable), and on an input containing an unrecognized impact
level it fails: no bucket exists to receive the record. -/
theorem group_totality :
    (∀ us : List Update, (∀ u ∈ us, validImpact u) →
      (group_updates_by_impact us).isSome = true) ∧
    group_updates_by_impact [badUpdate] = none :=
  ⟨fun us h => groupGo_total us emptyBuckets h, by decide⟩

/-- Witness for C5 at the seed data and the unrecognized-level record. -/
theorem group_totality_witness :
    (group_updates_by_impact STUB_UPDATES).isSome = true ∧
    group_updates_by_impact [badUpdate] = none :=
  ⟨group_totality.1 STUB_UPDATES (by decide), group_totality.2⟩

section RendererLemmas

lemma mem_renderBlocks {r a : EditMap} {u : Update} {x : Element} :
    ∀ {l : List Update}, u ∈ l → x ∈ renderUpdateBlock r a u → x ∈ renderBlocks r a l := by
  intro l
  induction l with
  | nil => intro h _; simp at h
  | cons v rest ih =>
    intro hu hx
    rcases List.mem_cons.mp hu with rfl | h'
    · simp only [renderBlocks, List.mem_append]
      exact Or.inl hx
    · simp only [renderBlocks, List.mem_append]
      exact Or.inr (ih h' hx)

lemma mem_renderSection {r a : EditMap} {u : Update} {x : Element} {l : List Update}
    (hu : u ∈ l) (hx : x ∈ renderUpdateBlock r a u) (title : String) :
    x ∈ renderSection title l r a := by
  cases l with
  | nil => simp at hu
  | cons v rest =>
    have hb : x ∈ renderBlocks r a (v :: rest) := mem_renderBlocks hu hx
    simp only [renderSection, List.cons_append, List.nil_append, List.mem_cons,
      List.mem_append]
    tauto

lemma mem_generate_pdf_block (us : List Update) (r a : EditMap) (t : String)
    (es : List Element) (u : Update) (x : Element) (hu : u ∈ us)
    (hes : generate_pdf us r a t = some es) (hx : x ∈ renderUpdateBlock r a u) :
    x ∈ es := by
  unfold generate_pdf at hes
  cases hg : group_updates_by_impact us with
  | none => rw [hg] at hes; exact Option.noConfusion hes
  | some b =>
    rw [hg] at hes
    injection hes with hes
    subst hes
    have hvalid := groupGo_valid us emptyBuckets b hg u hu
    obtain ⟨e1, e2, e3, e4⟩ := groupGo_char us emptyBuckets b hg
    simp only [List.mem_append]
    rcases hvalid with h | h | h | h
    · have humem : u ∈ b.critical := by
        rw [e1]; simp [emptyBuckets, List.mem_filter, hu, h]
      have hsec := mem_renderSection humem hx "Critical or High Priority"
      tauto
    · have humem : u ∈ b.high := by
        rw [e2]; simp [emptyBuckets, List.mem_filter, hu, h]
      have hsec := mem_renderSection humem hx "High Priority"
      tauto
    · have humem : u ∈ b.medium := by
        rw [e3]; simp [emptyBuckets, List.mem_filter, hu, h]
      have hsec := mem_renderSection humem hx "Medium Priority"
      tauto
    · have humem : u ∈ b.low := by
        rw [e4]; simp [emptyBuckets, List.mem_filter, hu, h]
      have hsec := mem_renderSection humem hx "Emerging Trends / No Material Changes"
      tauto

end RendererLemmas

/-- C1: in the rendered document, each record's rationale line carries the
edit-map value verbatim when the record's identifier is a key of the rationale
map and the record's default rationale otherwise; likewise the
affected-products line carries the edit-map value verbatim when present, and
otherwise the record's default list joined with ", ". -/
theorem generate_pdf_edit_semantics (us : List Update) (r a : EditMap) (t : String)
    (es : List Element) (u : Update) (hu : u ∈ us)
    (hes : generate_pdf us r a t = some es) :
    (∀ v, lookupEdit r u.id = some v →
      Element.para ("- <b>Rationale</b>: " ++ v) Style.normal ∈ es) ∧
    (lookupEdit r u.id = none →
      Element.para ("- <b>Rationale</b>: " ++ u.rationale) Style.normal ∈ es) ∧
    (∀ v, lookupEdit a u.id = some v →
      Element.para ("- <b>Affected Products or Operations</b>: " ++ v) Style.normal ∈ es) ∧
    (lookupEdit a u.id = none →
      Element.para ("- <b>Affected Products or Operations</b>: " ++
        String.intercalate ", " u.affected_products) Style.normal ∈ es) := by
  have hrat : Element.para ("- <b>Rationale</b>: " ++ (lookupEdit r u.id).getD u.rationale)
      Style.normal ∈ es :=
    mem_generate_pdf_block us r a t es u _ hu hes (by simp [renderUpdateBlock])
  have haff : Element.para ("- <b>Affected Products or Operations</b>: " ++
      (lookupEdit a u.id).getD (String.intercalate ", " u.affected_products))
      Style.normal ∈ es :=
    mem_generate_pdf_block us r a t es u _ hu hes (by simp [renderUpdateBlock])
  refine ⟨fun v hv => ?_, fun hn => ?_, fun v hv => ?_, fun hn => ?_⟩
  · rw [hv] at hrat; simpa using hrat
  · rw [hn] at hrat; simpa using hrat
  · rw [hv] at haff; simpa using haff
  · rw [hn] at haff; simpa using haff

/-- A minimal single record used to instantiate the renderer theorems. -/
def u0 : Update :=
  { id := 7, country := "X", regulation_name := "R", reference_number := "N",
    authority := "A", summary := "S", key_changes := [], effective_date := "D1",
    compliance_deadline := "D2", transition_period := "P", applicable := true,
    impact_level := "LOW", harmonization := [], affected_products := [],
    rationale := "DefaultRationale" }

/-- Witness for C1: with the rationale of record 7 edited, the edited text is
rendered verbatim. -/
theorem generate_pdf_edit_semantics_witness :
    Element.para ("- <b>Rationale</b>: " ++ "EditedRationale") Style.normal ∈
      (generate_pdf [u0] [(7, "EditedRationale")] [] "t").getD [] :=
  (generate_pdf_edit_semantics [u0] [(7, "EditedRationale")] [] "t"
    ((generate_pdf [u0] [(7, "EditedRationale")] [] "t").getD [])
    u0 (by simp) rfl).1 "EditedRationale" rfl

/-- C2 (counterexample): on an empty update set the four sections are all
rendered with their "no updates" placeholders, yet the document contains no
page break at all — the `continue` taken for an empty section skips the
`PageBreak` append, refuting "every section, including empty ones, is followed
by a page break". -/
theorem generate_pdf_pagebreak_cex :
    generate_pdf [] [] [] "2025-01-01 00:00" ≠ none ∧
    Element.para "Medium Priority" Style.heading2 ∈
      (generate_pdf [] [] [] "2025-01-01 00:00").getD [] ∧
    Element.para "No updates in this section." Style.normal ∈
      (generate_pdf [] [] [] "2025-01-01 00:00").getD [] ∧
    Element.pageBreak ∉ (generate_pdf [] [] [] "2025-01-01 00:00").getD [] := by
  decide

/-- C2 (amended): the rendered document is the header followed by the four
impact sections in fixed order CRITICAL, HIGH, MEDIUM, LOW; every section
starts with its title; an empty section renders the "no updates" placeholder
and is not followed by a page break; every nonempty section ends with a page
break. -/
theorem generate_pdf_sections (us : List Update) (r a : EditMap) (t : String)
    (b : Buckets) (hb : group_updates_by_impact us = some b) :
    generate_pdf us r a t =
      some (pdfHeader t ++
        renderSection "Critical or High Priority" b.critical r a ++
        renderSection "High Priority" b.high r a ++
        renderSection "Medium Priority" b.medium r a ++
        renderSection "Emerging Trends / No Material Changes" b.low r a) ∧
    (∀ title l, (renderSection title l r a).head? = some (Element.para title Style.heading2)) ∧
    (∀ title, renderSection title [] r a =
        [Element.para title Style.heading2, Element.spacer 15,
         Element.para "No updates in this section." Style.normal, Element.spacer 10] ∧
      Element.pageBreak ∉ renderSection title [] r a) ∧
    (∀ title l, l ≠ [] → (renderSection title l r a).getLast? = some Element.pageBreak) := by
  refine ⟨?_, ?_, ?_, ?_⟩
  · unfold generate_pdf
    rw [hb]
  · intro title l
    cases l <;> rfl
  · intro title
    refine ⟨rfl, ?_⟩
    simp [renderSection]
  · intro title l hl
    cases l with
    | nil => exact absurd rfl hl
    | cons v rest =>
      show ((Element.para title Style.heading2 :: Element.spacer 15 ::
          renderBlocks r a (v :: rest)) ++ [Element.pageBreak]).getLast? =
        some Element.pageBreak
      rw [List.getLast?_append_cons]
      rfl

/-- Witness for C2 (amended) on a one-record input. -/
theorem generate_pdf_sections_witness :
    generate_pdf [u0] [] [] "t" =
      some (pdfHeader "t" ++
        renderSection "Critical or High Priority"
          ((group_updates_by_impact [u0]).getD emptyBuckets).critical [] [] ++
        renderSection "High Priority"
          ((group_updates_by_impact [u0]).getD emptyBuckets).high [] [] ++
        renderSection "Medium Priority"
          ((group_updates_by_impact [u0]).getD emptyBuckets).medium [] [] ++
        renderSection "Emerging Trends / No Material Changes"
          ((group_updates_by_impact [u0]).getD emptyBuckets).low [] []) :=
  (generate_pdf_sections [u0] [] [] "t"
    ((group_updates_by_impact [u0]).getD emptyBuckets) rfl).1

/-- C3: the renderer is a pure function of the update set, the two edit maps
and the generation timestamp — two invocations with identical inputs produce
identical documents, with no dependence on hidden state. -/
theorem generate_pdf_deterministic (us1 us2 : List Update) (r1 r2 a1 a2 : EditMap)
    (t1 t2 : String) (hu : us1 = us2) (hr : r1 = r2) (ha : a1 = a2) (ht : t1 = t2) :
    generate_pdf us1 r1 a1 t1 = generate_pdf us2 r2 a2 t2 := by
  rw [hu, hr, ha, ht]

/-- Witness for C3 at the seed data. -/
theorem generate_pdf_deterministic_witness :
    generate_pdf STUB_UPDATES [] [] "2025-10-12 00:00" =
      generate_pdf STUB_UPDATES [] [] "2025-10-12 00:00" :=
  generate_pdf_deterministic STUB_UPDATES STUB_UPDATES [] [] [] []
    "2025-10-12 00:00" "2025-10-12 00:00" rfl rfl rfl rfl

/-- A session sitting in the Running view. -/
def exampleRunning : Session :=
  { state := WState.Running, results := none, rationales := [], affected := [],
    logs := ["Ingestion started at 10:00:00"], error := none }

/-- A session sitting in the Complete view. -/
def exampleComplete : Session :=
  { state := WState.Complete, results := some STUB_UPDATES,
    rationales := [(1, "Edited")], affected := [(1, "Shield")],
    logs := ["Analysis complete in 1.50 seconds."], error := none }

/-- A session sitting in the Failure view. -/
def exampleFailure : Session :=
  { state := WState.Failure, results := none, rationales := [], affected := [],
    logs := ["Error: Simulated analysis failure."],
    error := some "Simulated analysis failure." }

/-- C6: in the Running phase every pipeline outcome is handled (the step is
total over outcomes), and an exception with message `msg` is caught: its
message is stored as the session error, an `"Error: "` line is appended to the
log, and the workflow moves to Failure. -/
theorem running_exceptions_handled (s : Session) (hs : s.state = WState.Running) :
    (∀ o, (step s (AppAction.pipeline o)).isSome = true) ∧
    (∀ lb msg, step s (AppAction.pipeline (RunOutcome.failure lb msg)) =
      some { s with logs := s.logs ++ lb ++ ["Error: " ++ msg],
                    error := some msg, state := WState.Failure }) := by
  constructor
  · intro o
    simp [step, hs]
  · intro lb msg
    simp [step, hs, runningStep]

/-- Witness for C6 at a concrete Running session. -/
theorem running_exceptions_handled_witness :
    (∀ o, (step exampleRunning (AppAction.pipeline o)).isSome = true) ∧
    (∀ lb msg, step exampleRunning (AppAction.pipeline (RunOutcome.failure lb msg)) =
      some { exampleRunning with
             logs := exampleRunning.logs ++ lb ++ ["Error: " ++ msg],
             error := some msg, state := WState.Failure }) :=
  running_exceptions_handled exampleRunning rfl

/-- C7: every session reachable from the initial one by valid transitions has
its result set present exactly when the state is Complete, and its error
string present only in the Failure state. -/
theorem session_invariant (s : Session) (h : Reachable s) :
    (s.results.isSome = true ↔ s.state = WState.Complete) ∧
    (s.error.isSome = true → s.state = WState.Failure) := by
  induction h with
  | init => simp [initSession]
  | @step s a s' hr hstep ih =>
    obtain ⟨ih1, ih2⟩ := ih
    cases a with
    | runAnalysis =>
      simp only [step] at hstep
      split at hstep
      · cases hstep; simp_all
      · exact absurd hstep (by simp)
    | pipeline o =>
      simp only [step] at hstep
      split at hstep
      · cases hstep
        cases o with
        | success t1 t2 t3 elapsed => simp_all [runningStep, STUB_UPDATES]
        | failure lb msg => simp_all [runningStep]
      · exact absurd hstep (by simp)
    | editRationale i v =>
      simp only [step] at hstep
      split at hstep
      · cases hstep; simp_all
      · exact absurd hstep (by simp)
    | editAffected i v =>
      simp only [step] at hstep
      split at hstep
      · cases hstep; simp_all
      · exact absurd hstep (by simp)
    | downloadPdf elapsed =>
      simp only [step] at hstep
      split at hstep
      · cases hstep; simp_all
      · exact absurd hstep (by simp)
    | reset =>
      simp only [step] at hstep
      split at hstep
      · cases hstep; simp_all
      · exact absurd hstep (by simp)
    | retry =>
      simp only [step] at hstep
      split at hstep
      · cases hstep; simp_all
      · exact absurd hstep (by simp)

/-- Witness for C7 at the initial session. -/
theorem session_invariant_witness :
    (initSession.results.isSome = true ↔ initSession.state = WState.Complete) ∧
    (initSession.error.isSome = true → initSession.state = WState.Failure) :=
  session_invariant initSession Reachable.init

/-- C8: from Running, one step reaches only Complete or Failure; on the
error-free path the fixed `STUB_UPDATES` result set is stored and the last log
line is the completion line carrying the elapsed time. -/
theorem running_next_states (s : Session) (a : AppAction) (s' : Session)
    (hs : s.state = WState.Running) (h : step s a = some s') :
    (s'.state = WState.Complete ∨ s'.state = WState.Failure) ∧
    (∀ t1 t2 t3 elapsed,
      a = AppAction.pipeline (RunOutcome.success t1 t2 t3 elapsed) →
      s'.results = some STUB_UPDATES ∧
      s'.logs.getLast? = some ("Analysis complete in " ++ elapsed ++ " seconds.")) := by
  cases a with
  | runAnalysis => simp [step, hs] at h
  | editRationale i v => simp [step, hs] at h
  | editAffected i v => simp [step, hs] at h
  | downloadPdf elapsed => simp [step, hs] at h
  | reset => simp [step, hs] at h
  | retry => simp [step, hs] at h
  | pipeline o =>
    simp only [step, hs, if_pos, Option.some.injEq] at h
    subst h
    cases o with
    | success t1 t2 t3 elapsed =>
      refine ⟨Or.inl rfl, ?_⟩
      intro t1' t2' t3' elapsed' heq
      obtain ⟨rfl, rfl, rfl, rfl⟩ : t1 = t1' ∧ t2 = t2' ∧ t3 = t3' ∧ elapsed = elapsed' := by
        cases heq; exact ⟨rfl, rfl, rfl, rfl⟩
      refine ⟨rfl, ?_⟩
      show (s.logs ++ ("Ingestion started at " ++ t1) ::
          ("Parsing started at " ++ t2) :: ("Classification started at " ++ t3) ::
          ("Analysis complete in " ++ elapsed ++ " seconds.") :: []).getLast? = _
      rw [List.getLast?_append_cons]
      rfl
    | failure lb msg =>
      refine ⟨Or.inr rfl, ?_⟩
      intro t1 t2 t3 elapsed heq
      simp at heq

/-- A concrete successful pipeline run. -/
def successRun : RunOutcome := RunOutcome.success "10:00:00" "10:00:01" "10:00:02" "1.50"

/-- Witness for C8 on a concrete Running session and successful run. -/
theorem running_next_states_witness :
    ((runningStep exampleRunning successRun).state = WState.Complete ∨
     (runningStep exampleRunning successRun).state = WState.Failure) ∧
    (∀ t1 t2 t3 elapsed,
      AppAction.pipeline successRun =
        AppAction.pipeline (RunOutcome.success t1 t2 t3 elapsed) →
      (runningStep exampleRunning successRun).results = some STUB_UPDATES ∧
      (runningStep exampleRunning successRun).logs.getLast? =
        some ("Analysis complete in " ++ elapsed ++ " seconds.")) :=
  running_next_states exampleRunning (AppAction.pipeline successRun)
    (runningStep exampleRunning successRun) rfl rfl

/-- C9: "Reset" is offered only in the Complete state, and from Complete it
always yields the session with every field back at its initial value: state
Idle, result set absent, both edit maps empty, log list empty, error cleared. -/
theorem reset_semantics :
    (∀ s s' : Session, step s AppAction.reset = some s' → s.state = WState.Complete) ∧
    (∀ s : Session, s.state = WState.Complete →
      step s AppAction.reset =
        some { state := WState.Idle, results := none, rationales := [],
               affected := [], logs := [], error := none }) := by
  constructor
  · intro s s' h
    by_contra hne
    simp [step, hne] at h
  · intro s hsC
    simp [step, hsC]

/-- Witness for C9 at a concrete Complete session with populated fields. -/
theorem reset_semantics_witness :
    step exampleComplete AppAction.reset =
      some { state := WState.Idle, results := none, rationales := [],
             affected := [], logs := [], error := none } :=
  reset_semantics.2 exampleComplete rfl

/-- C10: "Retry" taken from Failure changes only the workflow state (to Idle)
and the error (cleared); the logs, the result set and both edit maps are
untouched. -/
theorem retry_frame (s s' : Session) (hs : s.state = WState.Failure)
    (h : step s AppAction.retry = some s') :
    s'.state = WState.Idle ∧ s'.error = none ∧ s'.logs = s.logs ∧
    s'.results = s.results ∧ s'.rationales = s.rationales ∧
    s'.affected = s.affected := by
  simp only [step, hs, if_pos, Option.some.injEq] at h
  subst h
  exact ⟨rfl, rfl, rfl, rfl, rfl, rfl⟩

/-- The Failure session after "Retry". -/
def exampleFailureRetried : Session :=
  { exampleFailure with state := WState.Idle, error := none }

/-- Witness for C10 at a concrete Failure session. -/
theorem retry_frame_witness :
    exampleFailureRetried.state = WState.Idle ∧ exampleFailureRetried.error = none ∧
    exampleFailureRetried.logs = exampleFailure.logs ∧
    exampleFailureRetried.results = exampleFailure.results ∧
    exampleFailureRetried.rationales = exampleFailure.rationales ∧
    exampleFailureRetried.affected = exampleFailure.affected :=
  retry_frame exampleFailure exampleFailureRetried rfl rfl
